import Mathlib

/-!
Shallow embedding of the rust-eth-ganache examples
(`src/simple_transactions.rs` and `src/contract_deploy.rs`) and proofs of
the specification claims about them.

Network collaborators (the Ganache JSON-RPC provider, the signing
middleware) are not part of the repository source; their responses enter
the embedded functions as explicitly quantified inputs, and the few pieces
of collaborator behaviour that a claim depends on are modelled from the
specification and marked as such in their doc comments.
-/

namespace EthGanache

/-- One compiler diagnostic, as aggregated in `output.output().errors` of
`contract_deploy.rs`: the file it refers to, its severity and its text. -/
structure Diagnostic where
  file : String
  isError : Bool
  message : String
deriving DecidableEq

/-- The error outcomes of the two example programs. Each constructor embeds
one distinct failure site of the source (the string carried by the eyre
context at that site is recorded in the comment). -/
inductive Err where
  /-- simple_transactions.rs line 58: context "Missing receipt". -/
  | missingReceipt
  /-- simple_transactions.rs line 63: context "cannot get block number"
      (the spec's ConfirmationError). -/
  | confirmationError
  /-- contract_deploy.rs line 102: context "Failed to get block". -/
  | failedToGetBlock
  /-- contract_deploy.rs line 107: context "Failed to get the base fee for
      the next block" (the spec's PricingError). -/
  | pricingError
  /-- contract_deploy.rs line 124: "Project root {root} does not exist!"
      (the spec's ConfigurationError). -/
  | configurationError (root : String)
  /-- contract_deploy.rs lines 145-148: "Compiling solidity project failed"
      carrying the aggregated diagnostics (the spec's CompilationError). -/
  | compilationError (errors : List Diagnostic)
  /-- contract_deploy.rs line 78: context "Contract not found"
      (the spec's NotFoundError). -/
  | notFoundError
  /-- contract_deploy.rs line 83: context "Missing abi from contract"
      (the spec's MissingAbiError). -/
  | missingAbiError
  /-- contract_deploy.rs line 84: context "Missing bytecode from contract"
      (the spec's MissingBytecodeError). -/
  | missingBytecodeError
  /-- contract_deploy.rs line 159: context "No ABI found for artifact"
      raised while rendering, carrying the artifact name. -/
  | noAbiFound (name : String)
  /-- Chain-identity failure of the signing middleware
      (the spec's ChainIdMismatchError). -/
  | chainIdMismatchError
deriving DecidableEq

/-- The fields of the ethers `TransactionReceipt` that the examples read:
the mined block number and the execution status, both optional. -/
structure Receipt where
  block_number : Option Nat
  status : Option Nat
deriving DecidableEq

/-- The confirmation tail of `main` in simple_transactions.rs, lines 52-64:
the awaited provider response is an optional receipt; a missing receipt is
an error, and a receipt whose `block_number` is absent is an error, so the
caller only ever proceeds with a receipt together with its mined block. -/
def submitAndConfirm (resp : Option Receipt) : Except Err (Receipt × Nat) :=
  match resp with
  | none => .error .missingReceipt
  | some r =>
    match r.block_number with
    | none => .error .confirmationError
    | some b => .ok (r, b)

/-- The ethers `TransactionRequest` fields used by simple_transactions.rs:
recipient, value and sender, each optional until set. Addresses and
amounts are embedded as natural numbers. -/
structure TransactionRequest where
  to_ : Option Nat
  value : Option Nat
  from_ : Option Nat
deriving DecidableEq

/-- `TransactionRequest::pay(to, value)` of line 49: a request with the
recipient and amount set and no sender yet. -/
def TransactionRequest.pay (dest : Nat) (value : Nat) : TransactionRequest :=
  { to_ := some dest, value := some value, from_ := none }

/-- The `.from(first_address)` builder call of line 49: set the sender. -/
def TransactionRequest.setFrom (tx : TransactionRequest) (addr : Nat) : TransactionRequest :=
  { tx with from_ := some addr }

/-- Balances per address plus the current block height of the chain. -/
structure ChainState where
  balances : Nat → Nat
  blockHeight : Nat

/-- Modelled from the spec: the network connection's execution of a value
transfer is an external collaborator (Ganache), absent from src/. Per the
spec's round-trip property, submitting a transfer from a funded sender
debits the sender by the amount, credits the recipient by exactly the
amount, mines it in the next block and yields a receipt whose block number
is that block; an underfunded or malformed request yields no receipt. -/
def sendAndMine (st : ChainState) (tx : TransactionRequest) : ChainState × Option Receipt :=
  match tx.from_, tx.to_, tx.value with
  | some s, some t, some v =>
    if v ≤ st.balances s then
      let debited : Nat → Nat := fun a => if a = s then st.balances a - v else st.balances a
      let credited : Nat → Nat := fun a => if a = t then debited a + v else debited a
      ({ balances := credited, blockHeight := st.blockHeight + 1 },
       some { block_number := some (st.blockHeight + 1), status := some 1 })
    else (st, none)
  | _, _, _ => (st, none)

/-- The transfer flow of `main` in simple_transactions.rs, lines 49-64:
build the request with `pay` and `.from`, submit it to the connection,
and run the confirmation tail on the response; returns the confirmation
outcome and the post-transaction chain state. -/
def transferFlow (st : ChainState) (sender dest amount : Nat) :
    Except Err (Receipt × Nat) × ChainState :=
  let tx := (TransactionRequest.pay dest amount).setFrom sender
  let (st', resp) := sendAndMine st tx
  (submitAndConfirm resp, st')

/-- Modelled from the spec: the EIP-1559 derivation of the next block's
base fee from the latest block, performed inside the ethers library
(`Block::next_block_base_fee`), absent from src/. With an elasticity
multiplier of 2 and a change denominator of 8, a block at its gas target
keeps the base fee, a fuller block raises it and an emptier one lowers
it. Only its option structure matters to the claims: it is absent exactly
when the block carries no base fee. -/
def calcNextBlockBaseFee (gas_used gas_limit base_fee : Nat) : Nat :=
  let gas_target := gas_limit / 2
  if gas_used = gas_target then base_fee
  else if gas_target < gas_used then
    base_fee + max 1 ((gas_used - gas_target) * base_fee / gas_target / 8)
  else
    base_fee - (gas_target - gas_used) * base_fee / gas_target / 8

/-- The fields of an ethers `Block` used by contract_deploy.rs: gas
accounting and the optional base fee (absent on pre-fee-market chains). -/
structure Block where
  gas_used : Nat
  gas_limit : Nat
  base_fee_per_gas : Option Nat
deriving DecidableEq

/-- The `next_block_base_fee` accessor called at contract_deploy.rs line
106: none when the block exposes no base fee, otherwise the derived
next-block fee. -/
def Block.next_block_base_fee (b : Block) : Option Nat :=
  match b.base_fee_per_gas with
  | none => none
  | some base => some (calcNextBlockBaseFee b.gas_used b.gas_limit base)

/-- The gas-pricing step of `main` in contract_deploy.rs, lines 98-107:
the latest-block query response is an optional block; a missing block is
an error, a block without a next-block base fee is an error, otherwise
the price is exactly that fee. -/
def price (latestBlock : Option Block) : Except Err Nat :=
  match latestBlock with
  | none => .error .failedToGetBlock
  | some b =>
    match b.next_block_base_fee with
    | none => .error .pricingError
    | some p => .ok p

/-- The transaction held by an ethers contract `Deployer`: the deployment
bytecode and the gas price, unset until `set_gas_price`. -/
structure DeployerTx where
  data : List Nat
  gas_price : Option Nat
deriving DecidableEq

/-- An ethers contract `Deployer` as used in contract_deploy.rs: its
pending transaction plus the flag set by `.legacy()`. -/
structure Deployer where
  tx : DeployerTx
  legacy : Bool
deriving DecidableEq

/-- `factory.deploy(())` at contract_deploy.rs line 95: a deployer for the
factory's bytecode with an empty constructor-argument list, no gas price
yet, not marked legacy. -/
def ContractFactory.deploy (bytecode : List Nat) : Deployer :=
  { tx := { data := bytecode, gas_price := none }, legacy := false }

/-- `deployer.tx.set_gas_price(gas_price)` at line 108. -/
def Deployer.set_gas_price (d : Deployer) (p : Nat) : Deployer :=
  { d with tx := { d.tx with gas_price := some p } }

/-- The `.legacy()` call at line 111: mark the deployment to be sent in a
legacy (pre-fee-market) transaction envelope. -/
def Deployer.toLegacy (d : Deployer) : Deployer :=
  { d with legacy := true }

/-- The envelope a transaction is submitted in. -/
inductive EnvelopeType where
  | legacy
  | eip1559
deriving DecidableEq

/-- What `.send()` at line 111 hands to the network: the deployment data,
the attached gas price, and the envelope chosen by the legacy flag. -/
structure SubmittedDeployment where
  data : List Nat
  gas_price : Option Nat
  envelope : EnvelopeType
deriving DecidableEq

/-- The `.send()` call at line 111, up to the network boundary. -/
def Deployer.send (d : Deployer) : SubmittedDeployment :=
  { data := d.tx.data, gas_price := d.tx.gas_price,
    envelope := if d.legacy then .legacy else .eip1559 }

/-- The deployment tail of `main` in contract_deploy.rs, lines 92-111:
price gas from the latest block, build the deployer from the resolved
bytecode, attach the price, mark it legacy and send it. -/
def deployFlow (latestBlock : Option Block) (bytecode : List Nat) :
    Except Err SubmittedDeployment :=
  match price latestBlock with
  | .error e => .error e
  | .ok gas_price =>
    let deployer := ContractFactory.deploy bytecode
    let deployer := deployer.set_gas_price gas_price
    .ok deployer.toLegacy.send

/-- One function signature of an ABI: name and typed parameter list. -/
structure AbiFunction where
  name : String
  inputs : List String
deriving DecidableEq

/-- An ABI descriptor: the contract's functions in compiler emission
order, and the optional constructor parameter signature. -/
structure Abi where
  functions : List AbiFunction
  ctor : Option (List String)
deriving DecidableEq

/-- A compiled artifact: optional ABI and optional bytecode, as in the
ethers-solc artifact the examples call `into_parts` on. -/
structure Artifact where
  abi : Option Abi
  bytecode : Option (List Nat)
deriving DecidableEq

/-- The (source-path, contract-name) key identifying one compiled unit. -/
structure ContractId where
  path : String
  name : String
deriving DecidableEq

/-- The artifact map produced by one compilation: compiled units keyed by
ContractId, in compiler emission order. -/
abbrev ArtifactMap := List (ContractId × Artifact)

/-- The compilation output the examples work with: the aggregated
diagnostics and the artifact map. -/
structure CompileOutput where
  errors : List Diagnostic
  artifacts : ArtifactMap
deriving DecidableEq

/-- `output.has_compiler_errors()` checked at contract_deploy.rs line 144:
true when some aggregated diagnostic has error severity. -/
def CompileOutput.has_compiler_errors (o : CompileOutput) : Bool :=
  o.errors.any (fun d => d.isError)

/-- Steps of `compile` observable outside it; running the solc toolchain
is the only one. -/
inductive CompileEvent where
  | toolchainRun
deriving DecidableEq

/-- The `compile` function of contract_deploy.rs, lines 121-152. The
filesystem existence check is the predicate `fsExists` applied to the
root; the toolchain front-end's answer for this root is the input
`toolchain`. If the root does not exist the function returns the
configuration error at once; otherwise it runs the toolchain (recorded in
the event trace) and fails with the full diagnostic list when the output
has compiler errors, or returns the whole output. -/
def compile (fsExists : String → Bool) (root : String) (toolchain : CompileOutput) :
    Except Err CompileOutput × List CompileEvent :=
  if !fsExists root then
    (.error (.configurationError root), [])
  else
    let output := toolchain
    if output.has_compiler_errors then
      (.error (.compilationError output.errors), [.toolchainRun])
    else
      (.ok output, [.toolchainRun])

/-- Modelled from the spec: the lookup inside `project.find(path, name)`
at contract_deploy.rs line 77 lives in ethers-solc, absent from src/.
Per the spec it is an exact-match lookup keyed on the canonicalized
(path, name) pair, with no fuzzy matching: the first entry whose key
equals both components, if any. -/
def findArtifact (m : ArtifactMap) (path name : String) : Option Artifact :=
  (m.find? (fun e => e.1.path == path && e.1.name == name)).map (fun e => e.2)

/-- The resolution step of `main` in contract_deploy.rs, lines 76-84:
look the contract up by its canonical path and name, then require both
the ABI and the bytecode, each absence a distinct error. -/
def resolve (m : ArtifactMap) (path name : String) : Except Err (Abi × List Nat) :=
  match findArtifact m path name with
  | none => .error .notFoundError
  | some artifact =>
    match artifact.abi with
    | none => .error .missingAbiError
    | some abi =>
      match artifact.bytecode with
      | none => .error .missingBytecodeError
      | some bytecode => .ok (abi, bytecode)

/-- Resolution with the artifact map threaded as state: the source borrows
the map and clones the found artifact (line 79), so the map after the
call is the map before it. -/
def resolveSt (m : ArtifactMap) (path name : String) :
    Except Err (Abi × List Nat) × ArtifactMap :=
  (resolve m path name, m)

/-- One rendered record of `print_project`: contract name, constructor
arguments when present, and each function's name and parameters in
emission order. -/
structure Record where
  name : String
  ctorArgs : Option (List String)
  functions : List (String × List String)
deriving DecidableEq

/-- What `print_project` prints for one artifact with an ABI
(contract_deploy.rs lines 161-180). -/
def renderRecord (name : String) (abi : Abi) : Record :=
  { name := name, ctorArgs := abi.ctor,
    functions := abi.functions.map (fun f => (f.name, f.inputs)) }

/-- The `print_project` function of contract_deploy.rs, lines 155-183:
walk the artifacts in order, rendering a record per contract, and fail at
the first artifact without an ABI. The second component is the output
rendered before the function returned: on failure it holds exactly the
records printed before the offending artifact was reached. -/
def print_project (arts : ArtifactMap) : Except Err Unit × List Record :=
  match arts with
  | [] => (.ok (), [])
  | (id, artifact) :: rest =>
    match artifact.abi with
    | none => (.error (.noAbiFound id.name), [])
    | some abi =>
      ((print_project rest).1, renderRecord id.name abi :: (print_project rest).2)

/-- A signed transaction: the payload plus the chain identifier its
signature is bound to. -/
structure SignedTransaction where
  payload : TransactionRequest
  chainId : Nat
deriving DecidableEq

/-- Steps of submission observable on the network; forwarding a signed
transaction to the node is the only one. -/
inductive NetEvent where
  | networkSubmit (stx : SignedTransaction)
deriving DecidableEq

/-- Modelled from the spec: the submission step of the signing middleware
built at contract_deploy.rs line 89 lives in ethers, absent from src/.
Per the spec's chain-identity invariant, a signed transaction whose bound
chain identifier differs from the connection's current chain identifier
fails with the mismatch error before anything is forwarded to the
network; otherwise the transaction is forwarded (recorded in the event
trace). -/
def submitSigned (connChainId : Nat) (stx : SignedTransaction) :
    Except Err SignedTransaction × List NetEvent :=
  if stx.chainId == connChainId then
    (.ok stx, [.networkSubmit stx])
  else
    (.error .chainIdMismatchError, [])

/-- C1: for every confirmation outcome of submit-and-confirm, a receipt
without a block number is never returned to the caller (so in particular
never one reported confirmed with an absent block number), and whenever
the retrieved receipt lacks a block number the operation fails with the
confirmation error. -/
theorem c1_no_confirmed_receipt_without_block (resp : Option Receipt) :
    (∀ r b, submitAndConfirm resp = .ok (r, b) → r.block_number = some b) ∧
    (∀ r, resp = some r → r.block_number = none →
      submitAndConfirm resp = .error .confirmationError) := by
  constructor
  · intro r b h
    match resp with
    | none => simp [submitAndConfirm] at h
    | some r0 =>
      cases hb : r0.block_number with
      | none => simp [submitAndConfirm, hb] at h
      | some b0 =>
        simp [submitAndConfirm, hb] at h
        rw [← h.1, hb, h.2]
  · intro r hr hb
    subst hr
    simp [submitAndConfirm, hb]

/-- A receipt reported with confirmed status but no block number. -/
def unminedReceipt : Receipt := ⟨none, some 1⟩

/-- Closed instance of c1: a retrieved receipt with confirmed status but
no block number makes the operation fail with the confirmation error. -/
theorem c1_witness :
    submitAndConfirm (some unminedReceipt) = .error .confirmationError :=
  (c1_no_confirmed_receipt_without_block (some unminedReceipt)).2
    unminedReceipt rfl rfl

/-- C3: submitting a signed transaction whose bound chain identifier
differs from the connection's chain identifier fails with the mismatch
error and forwards nothing to the network. -/
theorem c3_chain_id_mismatch_never_submits (connChainId : Nat)
    (stx : SignedTransaction) (h : stx.chainId ≠ connChainId) :
    submitSigned connChainId stx = (.error .chainIdMismatchError, []) := by
  simp [submitSigned, h]

/-- A transaction signed for chain 1. -/
def chainOneTx : SignedTransaction := ⟨⟨none, none, none⟩, 1⟩

/-- Closed instance of c3: chain id 1 against a connection on 1337. -/
theorem c3_witness :
    submitSigned 1337 chainOneTx = (.error .chainIdMismatchError, []) :=
  c3_chain_id_mismatch_never_submits 1337 chainOneTx (by decide)

/-- C4: on a latest block without a base fee, pricing fails with the
pricing error and never returns any value (no zero or default). -/
theorem c4_pricing_fails_without_base_fee (b : Block)
    (h : b.base_fee_per_gas = none) :
    price (some b) = .error .pricingError ∧ ∀ p, price (some b) ≠ .ok p := by
  have hn : b.next_block_base_fee = none := by
    simp [Block.next_block_base_fee, h]
  constructor
  · simp [price, hn]
  · intro p
    simp [price, hn]

/-- A latest block on a chain without fee-market support. -/
def preFeeMarketBlock : Block := ⟨21000, 30000000, none⟩

/-- Closed instance of c4: a block with no base-fee field. -/
theorem c4_witness :
    price (some preFeeMarketBlock) = .error .pricingError ∧
    ∀ p, price (some preFeeMarketBlock) ≠ .ok p :=
  c4_pricing_fails_without_base_fee preFeeMarketBlock rfl

/-- C5: whenever the latest block yields a next-block base fee, the
deployment is submitted in a legacy envelope with exactly that fee as its
gas price. -/
theorem c5_legacy_envelope_priced_at_base_fee (b : Block)
    (bytecode : List Nat) (p : Nat) (h : b.next_block_base_fee = some p) :
    deployFlow (some b) bytecode =
      .ok { data := bytecode, gas_price := some p, envelope := .legacy } := by
  simp [deployFlow, price, h, ContractFactory.deploy, Deployer.set_gas_price,
    Deployer.toLegacy, Deployer.send]

/-- A fee-market block sitting exactly at its gas target. -/
def targetBlock : Block := ⟨15000000, 30000000, some 100⟩

/-- Closed instance of c5: a block exactly at its gas target keeps the
base fee of 100, and the deployment goes out legacy at price 100. -/
theorem c5_witness :
    deployFlow (some targetBlock) [1, 2, 3] =
      .ok ⟨[1, 2, 3], some 100, .legacy⟩ :=
  c5_legacy_envelope_priced_at_base_fee targetBlock [1, 2, 3] 100 (by decide)

/-- C7: for a root that does not exist, compile fails with the
configuration error naming the root, with an empty event trace (no
toolchain invocation), whatever the toolchain would have answered. -/
theorem c7_nonexistent_root_no_toolchain (fsExists : String → Bool)
    (root : String) (toolchain : CompileOutput) (h : fsExists root = false) :
    compile fsExists root toolchain = (.error (.configurationError root), []) := by
  simp [compile, h]

/-- The root directory named by contract_deploy.rs line 44. -/
def demoRoot : String := "examples/"

/-- Closed instance of c7: an empty filesystem, any toolchain answer. -/
theorem c7_witness :
    compile (fun _ => false) demoRoot ⟨[], []⟩ =
      (.error (.configurationError demoRoot), []) :=
  c7_nonexistent_root_no_toolchain (fun _ => false) demoRoot ⟨[], []⟩ rfl

/-- C9: resolution does not mutate the artifact map, and resolving the
same key twice in sequence yields the same ABI and bytecode content both
times. -/
theorem c9_resolve_idempotent_no_mutation (m : ArtifactMap)
    (path name : String) :
    (resolveSt m path name).2 = m ∧
    (resolveSt (resolveSt m path name).2 path name).1 =
      (resolveSt m path name).1 :=
  ⟨rfl, rfl⟩

/-- C2: transferring an amount within the funded sender's balance to a
distinct recipient and confirming yields a receipt whose block number is
present, and the recipient's balance afterwards is its prior balance plus
exactly the amount. -/
theorem c2_transfer_round_trip (st : ChainState) (sender dest amount : Nat)
    (hfund : amount ≤ st.balances sender) (hne : sender ≠ dest) :
    ∃ r b, (transferFlow st sender dest amount).1 = .ok (r, b) ∧
      r.block_number = some b ∧
      (transferFlow st sender dest amount).2.balances dest =
        st.balances dest + amount := by
  refine ⟨⟨some (st.blockHeight + 1), some 1⟩, st.blockHeight + 1, ?_, rfl, ?_⟩
  · simp [transferFlow, sendAndMine, TransactionRequest.pay,
      TransactionRequest.setFrom, submitAndConfirm, hfund]
  · simp [transferFlow, sendAndMine, TransactionRequest.pay,
      TransactionRequest.setFrom, hfund, Ne.symm hne]

/-- The concrete scenario of the spec's round-trip test: one funded
account at address 0, every other balance zero. -/
def demoChain : ChainState := ⟨fun a => if a = 0 then 10000 else 0, 0⟩

/-- Closed instance of c2: transferring 1000 units to the fresh
zero-balance address 1 leaves it with balance 1000. -/
theorem c2_witness :
    demoChain.balances 1 = 0 ∧
    ∃ r b, (transferFlow demoChain 0 1 1000).1 = .ok (r, b) ∧
      r.block_number = some b ∧
      (transferFlow demoChain 0 1 1000).2.balances 1 =
        demoChain.balances 1 + 1000 :=
  ⟨rfl, c2_transfer_round_trip demoChain 0 1 1000 (by decide) (by decide)⟩

/-- C6: when the toolchain output carries at least one error-severity
diagnostic, compile fails with the full diagnostic list and returns no
output at all. -/
theorem c6_compile_all_or_nothing (fsExists : String → Bool) (root : String)
    (toolchain : CompileOutput) (hroot : fsExists root = true)
    (herr : ∃ d ∈ toolchain.errors, d.isError = true) :
    (compile fsExists root toolchain).1 =
      .error (.compilationError toolchain.errors) ∧
    ∀ m, (compile fsExists root toolchain).1 ≠ .ok m := by
  have hc : toolchain.has_compiler_errors = true := by
    obtain ⟨d, hd, hde⟩ := herr
    simp only [CompileOutput.has_compiler_errors, List.any_eq_true]
    exact ⟨d, hd, hde⟩
  constructor
  · simp [compile, hroot, hc]
  · intro m
    simp [compile, hroot, hc]

/-- The file of the deliberate syntax error in the c6 instance. -/
def badFile : String := "Broken.sol"

/-- The diagnostic text of the deliberate syntax error. -/
def badMessage : String := "ParserError: expected a semicolon"

/-- A toolchain answer with one error-severity diagnostic and some
artifacts that must not leak out. -/
def failingOutput : CompileOutput :=
  ⟨[⟨badFile, true, badMessage⟩], [(⟨badFile, badFile⟩, ⟨none, none⟩)]⟩

/-- Closed instance of c6: one failing unit fails the whole batch with
its diagnostics, and no artifact map is returned. -/
theorem c6_witness :
    (compile (fun _ => true) demoRoot failingOutput).1 =
      .error (.compilationError failingOutput.errors) ∧
    ∀ m, (compile (fun _ => true) demoRoot failingOutput).1 ≠ .ok m :=
  c6_compile_all_or_nothing (fun _ => true) demoRoot failingOutput rfl
    ⟨⟨badFile, true, badMessage⟩, by decide⟩

/-- C8: resolution distinguishes its three failure cases — when no entry
of the map carries exactly the looked-up key the result is the not-found
error; when the found artifact lacks an ABI, the missing-ABI error; when
it has an ABI but no bytecode, the missing-bytecode error — and the
lookup is exact: a found artifact always comes from an entry whose key
equals the looked-up (path, name) pair. -/
theorem c8_resolution_cases (m : ArtifactMap) (path name : String) :
    ((∀ e ∈ m, e.1 ≠ ContractId.mk path name) →
      resolve m path name = .error .notFoundError) ∧
    (∀ a, findArtifact m path name = some a → a.abi = none →
      resolve m path name = .error .missingAbiError) ∧
    (∀ a abi, findArtifact m path name = some a → a.abi = some abi →
      a.bytecode = none →
      resolve m path name = .error .missingBytecodeError) ∧
    (∀ a, findArtifact m path name = some a →
      ∃ e ∈ m, e.1 = ContractId.mk path name ∧ e.2 = a) := by
  refine ⟨?_, ?_, ?_, ?_⟩
  · intro h
    cases hf : m.find? (fun e => e.1.path == path && e.1.name == name) with
    | none => simp [resolve, findArtifact, hf]
    | some e =>
      exfalso
      have he := List.mem_of_find?_eq_some hf
      have hq := List.find?_some hf
      obtain ⟨⟨p0, n0⟩, a0⟩ := e
      simp only [Bool.and_eq_true, beq_iff_eq] at hq
      exact h ⟨⟨p0, n0⟩, a0⟩ he (by simp [hq.1, hq.2])
  · intro a hfa ha
    simp [resolve, hfa, ha]
  · intro a abi hfa ha hb
    simp [resolve, hfa, ha, hb]
  · intro a hfa
    cases hf : m.find? (fun e => e.1.path == path && e.1.name == name) with
    | none => simp [findArtifact, hf] at hfa
    | some e =>
      have he := List.mem_of_find?_eq_some hf
      have hq := List.find?_some hf
      simp only [findArtifact, hf, Option.map_some', Option.some_inj] at hfa
      obtain ⟨⟨p0, n0⟩, a0⟩ := e
      simp only [Bool.and_eq_true, beq_iff_eq] at hq
      exact ⟨⟨⟨p0, n0⟩, a0⟩, he, by simp [hq.1, hq.2], hfa⟩

/-- Canonical path of the contract deployed by contract_deploy.rs. -/
def pathA : String := "/abs/examples/BUSDImplementation.sol"

/-- Name of the contract deployed by contract_deploy.rs. -/
def nameA : String := "BUSDImplementation"

/-- Canonical path of a second compiled unit. -/
def pathB : String := "/abs/examples/Other.sol"

/-- Name of the second compiled unit. -/
def nameB : String := "Other"

/-- A map with one artifact lacking its ABI and one lacking bytecode. -/
def demoMap : ArtifactMap :=
  [(⟨pathA, nameA⟩, ⟨none, some [0, 1]⟩),
   (⟨pathB, nameB⟩, ⟨some ⟨[], none⟩, none⟩)]

/-- Closed instance of c8: on demoMap, a key present in neither entry is
not found, the ABI-less entry gives the missing-ABI error, and the
bytecode-less entry gives the missing-bytecode error. -/
theorem c8_witness :
    resolve demoMap pathA nameB = .error .notFoundError ∧
    resolve demoMap pathA nameA = .error .missingAbiError ∧
    resolve demoMap pathB nameB = .error .missingBytecodeError :=
  ⟨(c8_resolution_cases demoMap pathA nameB).1 (by decide),
   (c8_resolution_cases demoMap pathA nameA).2.1 ⟨none, some [0, 1]⟩
     (by decide) rfl,
   (c8_resolution_cases demoMap pathB nameB).2.2.1 ⟨some ⟨[], none⟩, none⟩
     ⟨[], none⟩ (by decide) rfl rfl⟩

/-- C10: rendering aborts at the first ABI-less artifact in iteration
order: when every artifact before it has an ABI, print_project returns
the no-ABI error naming that artifact, and the rendered output is exactly
the records of the artifacts before it — nothing after it is ever
rendered, whatever follows. -/
theorem c10_print_stops_at_first_missing_abi (pre : ArtifactMap)
    (x : ContractId × Artifact) (post : ArtifactMap)
    (hpre : ∀ e ∈ pre, e.2.abi ≠ none) (hx : x.2.abi = none) :
    (print_project (pre ++ x :: post)).1 = .error (.noAbiFound x.1.name) ∧
    (print_project (pre ++ x :: post)).2 = (print_project pre).2 := by
  induction pre with
  | nil =>
    obtain ⟨id, a⟩ := x
    have hx' : a.abi = none := hx
    simp [print_project, hx']
  | cons e rest ih =>
    obtain ⟨id, a⟩ := e
    have ha : a.abi ≠ none := hpre ⟨id, a⟩ (by simp)
    cases hab : a.abi with
    | none => exact absurd hab ha
    | some abi =>
      have ih' := ih (fun e he => hpre e (by simp [he]))
      simp only [List.cons_append]
      simp [print_project, hab, ih'.1, ih'.2]

/-- An artifact with both ABI and bytecode. -/
def artifactWithAbi : Artifact := ⟨some ⟨[], none⟩, some [0]⟩

/-- An artifact with bytecode but no ABI. -/
def artifactNoAbi : Artifact := ⟨none, some [0]⟩

/-- Closed instance of c10: with a complete artifact before and after an
ABI-less one, rendering errors on the middle artifact and outputs only
the first record, never the third. -/
theorem c10_witness :
    (print_project ([(⟨pathA, nameA⟩, artifactWithAbi)] ++
      (⟨pathB, nameB⟩, artifactNoAbi) ::
      [(⟨pathA, nameA⟩, artifactWithAbi)])).1 =
      .error (.noAbiFound (ContractId.mk pathB nameB).name) ∧
    (print_project ([(⟨pathA, nameA⟩, artifactWithAbi)] ++
      (⟨pathB, nameB⟩, artifactNoAbi) ::
      [(⟨pathA, nameA⟩, artifactWithAbi)])).2 =
      (print_project [(⟨pathA, nameA⟩, artifactWithAbi)]).2 :=
  c10_print_stops_at_first_missing_abi
    [(⟨pathA, nameA⟩, artifactWithAbi)]
    (⟨pathB, nameB⟩, artifactNoAbi)
    [(⟨pathA, nameA⟩, artifactWithAbi)]
    (by decide) rfl

end EthGanache
